import Mathlib

/-!
Shallow embedding of the NXP PCF85263/PCF85363 RTC driver core
(src/rtc-pcf85263.c and src/rtc-pcf85363.c): the register-map constants,
the BCD time codec used by the read/set time paths, the
stop/write/resume time-setting sequencer, the alarm interrupt enable
sequence, the interrupt-flag handler, the NVRAM passthrough and the
probe-time operation registration.

Bus activity is modelled at the granularity of the regmap calls the
driver issues: each regmap_bulk_read / regmap_bulk_write / regmap_write /
regmap_read / regmap_update_bits call the C code performs is one RegOp
in the emitted trace.  Transport outcomes are inputs to the model: each
transaction slot receives the error code (0 = success) that the
transport returns for it, and the functions mirror the C control flow,
returning early with that code exactly where the C code does.
-/

/-! Register map constants (identical in both source files). -/

def DT_100THS : Nat := 0x00

def DT_SECS : Nat := 0x01

def DT_MINUTES : Nat := 0x02

def DT_HOURS : Nat := 0x03

def DT_DAYS : Nat := 0x04

def DT_WEEKDAYS : Nat := 0x05

def DT_MONTHS : Nat := 0x06

def DT_YEARS : Nat := 0x07

def DT_SECOND_ALM1 : Nat := 0x08

def DT_ALARM_EN : Nat := 0x10

def CTRL_INTA_EN : Nat := 0x29

def CTRL_FLAGS : Nat := 0x2b

def CTRL_STOP_EN : Nat := 0x2e

def CTRL_RESETS : Nat := 0x2f

def CTRL_RAM : Nat := 0x40

/-- BIT(0) of the alarm-enable register: alarm-1 seconds match enable. -/
def ALRM_SEC_A1E : Nat := 1 <<< 0

def ALRM_MIN_A1E : Nat := 1 <<< 1

def ALRM_HR_A1E : Nat := 1 <<< 2

def ALRM_DAY_A1E : Nat := 1 <<< 3

def ALRM_MON_A1E : Nat := 1 <<< 4

/-- BIT(4) of CTRL_INTA_EN: alarm-1 interrupt enable. -/
def INT_A1IE : Nat := 1 <<< 4

/-- BIT(5) of CTRL_FLAGS: alarm-1 fired status flag. -/
def FLAGS_A1F : Nat := 1 <<< 5

def STOP_EN_STOP : Nat := 1 <<< 0

def RESET_CPR : Nat := 0xa4

/-- NVRAM_SIZE in src/rtc-pcf85363.c (the PCF85363 bank capacity). -/
def NVRAM_SIZE_85363 : Nat := 0x40

/-- NVRAM_SIZE in src/rtc-pcf85263.c (the PCF85263 bank capacity). -/
def NVRAM_SIZE_85263 : Nat := 0x01

/-! Helper semantics of C/kernel primitives used by the driver. -/

/-- Linux bcd2bin on a u8 argument: (val and 0x0f) + (val >> 4) * 10.
The argument is first reduced to a u8 as the C parameter conversion does;
the result is at most 165 so it fits a u8 without truncation. -/
def bcd2bin (val : Nat) : Nat := ((val % 256) &&& 0x0f) + ((val % 256) >>> 4) * 10

/-- Linux bin2bcd on a u8 argument, returning a u8:
((val / 10) << 4) + val % 10, with the u8 parameter and return
conversions made explicit as reductions mod 256. -/
def bin2bcd (val : Nat) : Nat := ((((val % 256) / 10) <<< 4) + (val % 256) % 10) % 256

/-- C conversion of a signed int to an 8-bit unsigned value
(reduction modulo 256 into the range 0..255). -/
def U8 (i : Int) : Nat := (i % 256).toNat

/-- Effect of regmap_update_bits(reg, mask, val) on the 8-bit register
value orig: tmp = (orig and not mask) or (val and mask). -/
def regmap_update_bits_effect (orig mask val : Nat) : Nat :=
  (orig &&& (0xFF ^^^ mask)) ||| (val &&& mask)

/-- The struct rtc_time fields the driver reads and writes, in the
order they are declared in the kernel's struct rtc_time.  Fields are C
ints, modelled as unbounded Int. -/
structure RtcTime where
  tm_sec : Int
  tm_min : Int
  tm_hour : Int
  tm_mday : Int
  tm_mon : Int
  tm_year : Int
  tm_wday : Int
deriving DecidableEq, Repr

/-- One regmap call issued by the driver, as recorded in a trace. -/
inductive RegOp where
  | bulkRead (addr len : Nat)
  | bulkWrite (addr : Nat) (data : List Nat)
  | write (addr val : Nat)
  | read (addr : Nat)
  | updateBits (addr mask val : Nat)
deriving DecidableEq, Repr

/-- Whether a regmap operation writes to register address a. -/
def writesTo (op : RegOp) (a : Nat) : Bool :=
  match op with
  | RegOp.bulkWrite addr data => decide (addr ≤ a ∧ a < addr + data.length)
  | RegOp.write addr _ => addr == a
  | RegOp.updateBits addr _ _ => addr == a
  | _ => false

/-- Whether a regmap operation reads the status-flags register. -/
def isStatusRead (op : RegOp) : Bool :=
  match op with
  | RegOp.read addr => addr == CTRL_FLAGS
  | RegOp.bulkRead addr len => decide (addr ≤ CTRL_FLAGS ∧ CTRL_FLAGS < addr + len)
  | _ => false

/-! The PCF85363 time codec (src/rtc-pcf85363.c lines 136-147 and
163-170). -/

/-- Decoding block of pcf85363_rtc_read_time (lines 136-147): buf is
the 8-byte block read from registers 0x00..0x07; buf[0] (fractional
seconds) is ignored; seconds and minutes are masked with 0x7F before
BCD decoding; the weekday is the low 3 bits verbatim; the month is
decremented by one; the year gets +100 for the 1900 base of rtc_time. -/
def pcf85363_decode_time (buf : List Nat) : RtcTime :=
  { tm_year := (bcd2bin (buf.getD DT_YEARS 0) : Int) + 100
  , tm_wday := ((buf.getD DT_WEEKDAYS 0) &&& 7 : Nat)
  , tm_sec := (bcd2bin ((buf.getD DT_SECS 0) &&& 0x7F) : Int)
  , tm_min := (bcd2bin ((buf.getD DT_MINUTES 0) &&& 0x7F) : Int)
  , tm_hour := (bcd2bin (buf.getD DT_HOURS 0) : Int)
  , tm_mday := (bcd2bin (buf.getD DT_DAYS 0) : Int)
  , tm_mon := (bcd2bin (buf.getD DT_MONTHS 0) : Int) - 1 }

/-- pcf85363_rtc_read_time: one bulk read of registers 0x00..0x07; on a
transport error the error code is returned, otherwise the decoded time.
readErr is the code returned by the transport for the bulk read. -/
def pcf85363_rtc_read_time (readErr : Int) (buf : List Nat) : Except Int RtcTime :=
  if readErr ≠ 0 then Except.error readErr
  else Except.ok (pcf85363_decode_time buf)

/-- Encoding block of pcf85363_rtc_set_time (lines 163-170): the 8
bytes buf[DT_100THS..DT_YEARS] written into tmp[2..9].  C int
arguments are converted to u8 at the bin2bcd call (and at the direct
weekday store); the year is reduced mod 100 by C truncated int
remainder before encoding. -/
def pcf85363_encode_time (tm : RtcTime) : List Nat :=
  [0,
   bin2bcd (U8 tm.tm_sec),
   bin2bcd (U8 tm.tm_min),
   bin2bcd (U8 tm.tm_hour),
   bin2bcd (U8 tm.tm_mday),
   U8 tm.tm_wday,
   bin2bcd (U8 (tm.tm_mon + 1)),
   bin2bcd (U8 (Int.tmod tm.tm_year 100))]

/-- The 11-byte stack buffer tmp of pcf85363_rtc_set_time:
tmp[0] = STOP_EN_STOP, tmp[1] = RESET_CPR, tmp[2..9] = the encoded
time block, tmp[10] never assigned by the C code — its (arbitrary)
stack content is the parameter stray. -/
def pcf85363_set_time_tmp (tm : RtcTime) (stray : Nat) : List Nat :=
  [STOP_EN_STOP, RESET_CPR] ++ pcf85363_encode_time tm ++ [stray]

/-- pcf85363_rtc_set_time (lines 152-183): bulk write of tmp[0..1] at
CTRL_STOP_EN (stop bit + prescaler reset), then a bulk write at
DT_100THS of sizeof(tmp) - 2 = 9 bytes starting at tmp[2], then a
write of 0 to CTRL_STOP_EN.  e1, e2, e3 are the transport codes for
the three transactions; the function returns the C return value
together with the trace of the regmap calls it issued. -/
def pcf85363_rtc_set_time (tm : RtcTime) (stray : Nat) (e1 e2 e3 : Int) :
    Int × List RegOp :=
  let tmp := pcf85363_set_time_tmp tm stray
  let w1 := RegOp.bulkWrite CTRL_STOP_EN (tmp.take 2)
  if e1 ≠ 0 then (e1, [w1])
  else
    let w2 := RegOp.bulkWrite DT_100THS ((tmp.drop 2).take (tmp.length - 2))
    if e2 ≠ 0 then (e2, [w1, w2])
    else (e3, [w1, w2, RegOp.write CTRL_STOP_EN 0])

/-! The PCF85263 variant (src/rtc-pcf85263.c lines 120-179), translated
independently from its own source file. -/

/-- Decoding block of pcf85263_rtc_read_time (lines 133-144). -/
def pcf85263_decode_time (buf : List Nat) : RtcTime :=
  { tm_year := (bcd2bin (buf.getD DT_YEARS 0) : Int) + 100
  , tm_wday := ((buf.getD DT_WEEKDAYS 0) &&& 7 : Nat)
  , tm_sec := (bcd2bin ((buf.getD DT_SECS 0) &&& 0x7F) : Int)
  , tm_min := (bcd2bin ((buf.getD DT_MINUTES 0) &&& 0x7F) : Int)
  , tm_hour := (bcd2bin (buf.getD DT_HOURS 0) : Int)
  , tm_mday := (bcd2bin (buf.getD DT_DAYS 0) : Int)
  , tm_mon := (bcd2bin (buf.getD DT_MONTHS 0) : Int) - 1 }

/-- pcf85263_rtc_read_time (lines 120-147). -/
def pcf85263_rtc_read_time (readErr : Int) (buf : List Nat) : Except Int RtcTime :=
  if readErr ≠ 0 then Except.error readErr
  else Except.ok (pcf85263_decode_time buf)

/-- Encoding block of pcf85263_rtc_set_time (lines 159-166). -/
def pcf85263_encode_time (tm : RtcTime) : List Nat :=
  [0,
   bin2bcd (U8 tm.tm_sec),
   bin2bcd (U8 tm.tm_min),
   bin2bcd (U8 tm.tm_hour),
   bin2bcd (U8 tm.tm_mday),
   U8 tm.tm_wday,
   bin2bcd (U8 (tm.tm_mon + 1)),
   bin2bcd (U8 (Int.tmod tm.tm_year 100))]

/-- The 11-byte stack buffer tmp of pcf85263_rtc_set_time, with the
never-assigned tmp[10] as the parameter stray. -/
def pcf85263_set_time_tmp (tm : RtcTime) (stray : Nat) : List Nat :=
  [STOP_EN_STOP, RESET_CPR] ++ pcf85263_encode_time tm ++ [stray]

/-- pcf85263_rtc_set_time (lines 149-179). -/
def pcf85263_rtc_set_time (tm : RtcTime) (stray : Nat) (e1 e2 e3 : Int) :
    Int × List RegOp :=
  let tmp := pcf85263_set_time_tmp tm stray
  let w1 := RegOp.bulkWrite CTRL_STOP_EN (tmp.take 2)
  if e1 ≠ 0 then (e1, [w1])
  else
    let w2 := RegOp.bulkWrite DT_100THS ((tmp.drop 2).take (tmp.length - 2))
    if e2 ≠ 0 then (e2, [w1, w2])
    else (e3, [w1, w2, RegOp.write CTRL_STOP_EN 0])

/-! Alarm interrupt enable, interrupt handler, NVRAM passthrough and
probe registration (src/rtc-pcf85363.c only; the pcf85263 file has no
alarm or NVRAM code). -/

/-- Kernel irqreturn_t values as used by pcf85363_rtc_handle_irq. -/
inductive IrqResult where
  | IRQ_HANDLED
  | IRQ_NONE
deriving DecidableEq, Repr

/-- The five alarm-1 per-field match enable bits, as the local
alarm_flags of the C function (bits 0..4 of DT_ALARM_EN). -/
def alarm1_match_flags : Nat :=
  ALRM_SEC_A1E ||| ALRM_MIN_A1E ||| ALRM_HR_A1E ||| ALRM_DAY_A1E ||| ALRM_MON_A1E

/-- The underscore-prefixed _pcf85363_rtc_alarm_irq_enable
(lines 213-234): regmap_update_bits on DT_ALARM_EN setting the five
match bits to alarm_flags when enabling, to 0 when disabling; then
regmap_update_bits on CTRL_INTA_EN doing the same for INT_A1IE; then,
only when ret == 0 and not enabled, regmap_update_bits clearing
FLAGS_A1F in CTRL_FLAGS.  e1, e2, e3 are the transport codes of the
three regmap calls in order. -/
def _pcf85363_rtc_alarm_irq_enable (enabled : Bool) (e1 e2 e3 : Int) :
    Int × List RegOp :=
  let op1 := RegOp.updateBits DT_ALARM_EN alarm1_match_flags
      (if enabled then alarm1_match_flags else 0)
  if e1 ≠ 0 then (e1, [op1])
  else
    let op2 := RegOp.updateBits CTRL_INTA_EN INT_A1IE (if enabled then INT_A1IE else 0)
    if e2 ≠ 0 ∨ enabled = true then (e2, [op1, op2])
    else (e3, [op1, op2, RegOp.updateBits CTRL_FLAGS FLAGS_A1F 0])

/-- pcf85363_rtc_handle_irq (lines 274-292): one regmap_read of
CTRL_FLAGS (readErr is its transport code, flags the value read); if
the read fails, IRQ_NONE; if FLAGS_A1F is set in the value read, the
host rtc alarm event is raised and a single regmap_update_bits clears
FLAGS_A1F, returning IRQ_HANDLED; otherwise IRQ_NONE with no further
bus activity. -/
def pcf85363_rtc_handle_irq (readErr : Int) (flags : Nat) : IrqResult × List RegOp :=
  if readErr ≠ 0 then (IrqResult.IRQ_NONE, [RegOp.read CTRL_FLAGS])
  else if flags &&& FLAGS_A1F ≠ 0 then
    (IrqResult.IRQ_HANDLED,
      [RegOp.read CTRL_FLAGS, RegOp.updateBits CTRL_FLAGS FLAGS_A1F 0])
  else (IrqResult.IRQ_NONE, [RegOp.read CTRL_FLAGS])

/-- pcf85363_nvram_read (lines 307-315): unconditionally one
regmap_bulk_read at CTRL_RAM + offset of the requested length, whose
transport code e is returned verbatim.  The C function performs no
bounds check of any kind. -/
def pcf85363_nvram_read (e : Int) (offset len : Nat) : Int × List RegOp :=
  (e, [RegOp.bulkRead (CTRL_RAM + offset) len])

/-- pcf85363_nvram_write (lines 317-325): unconditionally one
regmap_bulk_write at CTRL_RAM + offset of the given bytes, whose
transport code e is returned verbatim.  No bounds check. -/
def pcf85363_nvram_write (e : Int) (offset : Nat) (data : List Nat) : Int × List RegOp :=
  (e, [RegOp.bulkWrite (CTRL_RAM + offset) data])

/-- The driver callbacks that can populate a struct rtc_class_ops
entry in this driver. -/
inductive DriverFn where
  | readTime
  | setTime
  | readAlarm
  | setAlarm
  | alarmIrqEnable
deriving DecidableEq, Repr

/-- struct rtc_class_ops as populated by this driver; a missing
designated initializer is a NULL callback, modelled as none. -/
structure RtcClassOps where
  read_time : Option DriverFn := none
  set_time : Option DriverFn := none
  read_alarm : Option DriverFn := none
  set_alarm : Option DriverFn := none
  alarm_irq_enable : Option DriverFn := none
deriving DecidableEq, Repr

/-- rtc_ops (src/rtc-pcf85363.c lines 294-297): only read_time and
set_time are initialized. -/
def rtc_ops : RtcClassOps :=
  { read_time := some DriverFn.readTime
  , set_time := some DriverFn.setTime }

/-- rtc_ops_alarm (lines 299-305): all five callbacks initialized.
Defined in the source but never passed to any registration call. -/
def rtc_ops_alarm : RtcClassOps :=
  { read_time := some DriverFn.readTime
  , set_time := some DriverFn.setTime
  , read_alarm := some DriverFn.readAlarm
  , set_alarm := some DriverFn.setAlarm
  , alarm_irq_enable := some DriverFn.alarmIrqEnable }

/-- What pcf85363_probe registers against the host framework. -/
structure ProbeRegistration where
  registered_ops : RtcClassOps
  irq_handler_installed : Bool
  nvram_installed : Bool
deriving DecidableEq, Repr

/-- pcf85363_probe (lines 327-350): the only registration call is
devm_rtc_device_register with the address of rtc_ops (lines 344-347);
probe requests no interrupt line for pcf85363_rtc_handle_irq and
registers no NVRAM provider for the nvram read/write functions. -/
def pcf85363_probe : ProbeRegistration :=
  { registered_ops := rtc_ops
  , irq_handler_installed := false
  , nvram_installed := false }

/-! Helper lemmas. -/

/-- BCD round trip on two-digit values. -/
theorem bcd2bin_bin2bcd (v : Nat) (h : v < 100) : bcd2bin (bin2bcd v) = v := by
  revert h
  revert v
  decide

/-- BCD round trip through the 0x7F indicator mask applied by the
seconds/minutes decode path. -/
theorem bcd2bin_mask7F_bin2bcd (v : Nat) (h : v < 60) :
    bcd2bin (bin2bcd v &&& 0x7F) = v := by
  revert h
  revert v
  decide

/-- The low-3-bits mask is the identity on weekday values. -/
theorem and7_eq_self (v : Nat) (h : v < 8) : v &&& 7 = v := by
  revert h
  revert v
  decide

/-- U8 of a nonnegative cast is reduction mod 256. -/
theorem U8_natCast (n : Nat) : U8 (n : Int) = n % 256 := by
  unfold U8
  omega

/-- C truncated remainder agrees with Nat remainder on casts of
naturals. -/
theorem tmod_natCast (m n : Nat) : Int.tmod (m : Int) (n : Int) = ((m % n : Nat) : Int) :=
  rfl

set_option maxRecDepth 8192 in
/-- Clearing FLAGS_A1F by regmap_update_bits(CTRL_FLAGS, FLAGS_A1F, 0)
clears bit 5 and leaves every other bit of the 8-bit register
unchanged. -/
theorem update_bits_clears_only_A1F :
    ∀ f < 256, (regmap_update_bits_effect f FLAGS_A1F 0).testBit 5 = false ∧
      ∀ i < 8, i ≠ 5 → (regmap_update_bits_effect f FLAGS_A1F 0).testBit i = f.testBit i := by
  decide

/-! Claim theorems. -/

/-- Claim C1 (refuting the claimed frame, code bug): the bulk time
transaction of pcf85363_rtc_set_time does not write only registers
0x00-0x07: it writes sizeof(tmp) - 2 = 9 bytes starting at DT_100THS,
so the never-initialized stack byte tmp[10] (stray) is also written,
and the transaction covers the alarm-1 seconds match register
DT_SECOND_ALM1 = 0x08. -/
theorem c1_set_time_bulk_write_covers_alarm1_register (tm : RtcTime) (stray : Nat) :
    (pcf85363_rtc_set_time tm stray 0 0 0).2 =
      [RegOp.bulkWrite CTRL_STOP_EN [STOP_EN_STOP, RESET_CPR],
       RegOp.bulkWrite DT_100THS (pcf85363_encode_time tm ++ [stray]),
       RegOp.write CTRL_STOP_EN 0] ∧
    (pcf85363_encode_time tm ++ [stray]).length = 9 ∧
    writesTo (RegOp.bulkWrite DT_100THS (pcf85363_encode_time tm ++ [stray]))
      DT_SECOND_ALM1 = true := by
  refine ⟨?_, ?_, ?_⟩
  · simp [pcf85363_rtc_set_time, pcf85363_set_time_tmp, pcf85363_encode_time]
  · simp [pcf85363_encode_time]
  · simp [writesTo, pcf85363_encode_time, DT_100THS, DT_SECOND_ALM1]

/-- Claim C2 counterexample: offset 64 with length 1 exceeds the
PCF85363 bank capacity NVRAM_SIZE_85363 = 64, yet both nvram functions
still issue their bulk transaction (there is no OutOfBounds return
path and no bounds check in the code). -/
theorem c2_nvram_out_of_bounds_cex :
    NVRAM_SIZE_85363 < 64 + 1 ∧
    (pcf85363_nvram_read 0 64 1).2 = [RegOp.bulkRead 128 1] ∧
    (pcf85363_nvram_write 0 64 [170]).2 = [RegOp.bulkWrite 128 [170]] := by
  refine ⟨by decide, rfl, rfl⟩

/-- Claim C2 (amended): readNvram and writeNvram perform no bounds
check at all: even for offset/length with offset + length exceeding
the bank capacity they issue exactly one bulk transaction at
CTRL_RAM + offset and return the transport result verbatim. -/
theorem c2_nvram_unconditional_passthrough (e : Int) (offset len : Nat) (data : List Nat)
    (h1 : NVRAM_SIZE_85363 < offset + len)
    (h2 : NVRAM_SIZE_85363 < offset + data.length) :
    pcf85363_nvram_read e offset len = (e, [RegOp.bulkRead (CTRL_RAM + offset) len]) ∧
    pcf85363_nvram_write e offset data = (e, [RegOp.bulkWrite (CTRL_RAM + offset) data]) :=
  ⟨rfl, rfl⟩

/-- Witness for the amended C2 theorem at offset 64, length 1,
data [170], transport code -5. -/
theorem c2_nvram_unconditional_passthrough_witness :
    NVRAM_SIZE_85363 < 64 + 1 ∧ NVRAM_SIZE_85363 < 64 + [(170 : Nat)].length ∧
    (pcf85363_nvram_read (-5) 64 1 = (-5, [RegOp.bulkRead (CTRL_RAM + 64) 1]) ∧
     pcf85363_nvram_write (-5) 64 [170] = (-5, [RegOp.bulkWrite (CTRL_RAM + 64) [170]])) :=
  ⟨by decide, by decide,
   c2_nvram_unconditional_passthrough (-5) 64 1 [170] (by decide) (by decide)⟩

/-- Claim C3 counterexample: the seconds byte 10 = 0x0A has low nibble
10, yet decode returns a successfully decoded WallClockTime (with the
out-of-range value tm_sec = 10) rather than any corrupt-data error. -/
theorem c3_corrupt_nibble_decoded_cex :
    pcf85363_rtc_read_time 0 [0, 10, 0, 0, 1, 0, 1, 0] =
      Except.ok { tm_sec := 10, tm_min := 0, tm_hour := 0, tm_mday := 1,
                  tm_mon := 0, tm_year := 100, tm_wday := 0 } := rfl

/-- Claim C3 (amended): the decode path performs no BCD validity check
and can never fail: the result of readTime is an error exactly for a
transport failure, and every 8-byte buffer — including buffers with
nibbles 10-15 — decodes to a WallClockTime by the bcd2bin arithmetic. -/
theorem c3_read_time_error_is_transport_only (er : Int) (buf : List Nat) :
    (er = 0 ∧ pcf85363_rtc_read_time er buf = Except.ok (pcf85363_decode_time buf)) ∨
    (er ≠ 0 ∧ pcf85363_rtc_read_time er buf = Except.error er) := by
  by_cases h : er = 0
  · exact Or.inl ⟨h, by simp [pcf85363_rtc_read_time, h]⟩
  · exact Or.inr ⟨h, by simp [pcf85363_rtc_read_time, h]⟩

/-- Claim C4 counterexample: the valid time with year 23 (month 12,
day 18, hour 9, minute 5, second 0, weekday 1) does not round-trip:
the decoder adds 100 to the BCD year, so it comes back as 123. -/
theorem c4_year_roundtrip_cex :
    pcf85363_decode_time (pcf85363_encode_time
      { tm_sec := 0, tm_min := 5, tm_hour := 9, tm_mday := 18,
        tm_mon := 12, tm_year := 23, tm_wday := 1 }) ≠
    { tm_sec := 0, tm_min := 5, tm_hour := 9, tm_mday := 18,
      tm_mon := 12, tm_year := 23, tm_wday := 1 } := by
  decide

/-- Claim C4 (amended): the codec round-trips on every valid time
whose year field uses the driver's 1900-based convention: for
year 100-199 (calendar years 2000-2099), month 1-12, day 1-31,
hour 0-23, minute and second 0-59, weekday 0-6,
decode(encode(t)) = t.  The decoder adds 100 to the decoded BCD year
(the 1900-base adjustment), which is why 0-99 years do not
round-trip. -/
theorem c4_time_roundtrip (t : RtcTime)
    (hsec : 0 ≤ t.tm_sec ∧ t.tm_sec ≤ 59)
    (hmin : 0 ≤ t.tm_min ∧ t.tm_min ≤ 59)
    (hhour : 0 ≤ t.tm_hour ∧ t.tm_hour ≤ 23)
    (hday : 1 ≤ t.tm_mday ∧ t.tm_mday ≤ 31)
    (hmon : 1 ≤ t.tm_mon ∧ t.tm_mon ≤ 12)
    (hwday : 0 ≤ t.tm_wday ∧ t.tm_wday ≤ 6)
    (hyear : 100 ≤ t.tm_year ∧ t.tm_year ≤ 199) :
    pcf85363_decode_time (pcf85363_encode_time t) = t := by
  obtain ⟨s, mi, hr, d, mo, y, w⟩ := t
  simp only at hsec hmin hhour hday hmon hwday hyear
  lift s to ℕ using hsec.1 with sn
  lift mi to ℕ using hmin.1 with mn
  lift hr to ℕ using hhour.1 with hn
  lift d to ℕ using le_trans (by norm_num) hday.1 with dn
  lift mo to ℕ using le_trans (by norm_num) hmon.1 with mon
  lift w to ℕ using hwday.1 with wn
  lift y to ℕ using le_trans (by norm_num) hyear.1 with yn
  have hs : sn ≤ 59 := by exact_mod_cast hsec.2
  have hm : mn ≤ 59 := by exact_mod_cast hmin.2
  have hh : hn ≤ 23 := by exact_mod_cast hhour.2
  have hd : dn ≤ 31 := by exact_mod_cast hday.2
  have hmo2 : mon ≤ 12 := by exact_mod_cast hmon.2
  have hw : wn ≤ 6 := by exact_mod_cast hwday.2
  have hy1 : 100 ≤ yn := by exact_mod_cast hyear.1
  have hy2 : yn ≤ 199 := by exact_mod_cast hyear.2
  simp only [pcf85363_encode_time, pcf85363_decode_time, DT_SECS, DT_MINUTES,
    DT_HOURS, DT_DAYS, DT_WEEKDAYS, DT_MONTHS, DT_YEARS,
    List.getD_cons_zero, List.getD_cons_succ]
  have hcast : ((mon : Int) + 1) = ((mon + 1 : Nat) : Int) := by push_cast; ring
  have htmod : ((yn : Int)).tmod 100 = ((yn % 100 : Nat) : Int) := rfl
  rw [RtcTime.mk.injEq]
  refine ⟨?_, ?_, ?_, ?_, ?_, ?_, ?_⟩
  · rw [U8_natCast, Nat.mod_eq_of_lt (by omega), bcd2bin_mask7F_bin2bcd sn (by omega)]
  · rw [U8_natCast, Nat.mod_eq_of_lt (by omega), bcd2bin_mask7F_bin2bcd mn (by omega)]
  · rw [U8_natCast, Nat.mod_eq_of_lt (by omega), bcd2bin_bin2bcd hn (by omega)]
  · rw [U8_natCast, Nat.mod_eq_of_lt (by omega), bcd2bin_bin2bcd dn (by omega)]
  · rw [hcast, U8_natCast, Nat.mod_eq_of_lt (by omega),
      bcd2bin_bin2bcd (mon + 1) (by omega)]
    push_cast
    ring
  · rw [htmod, U8_natCast, Nat.mod_eq_of_lt (by omega),
      bcd2bin_bin2bcd (yn % 100) (by omega)]
    have : yn % 100 = yn - 100 := by omega
    rw [this]
    push_cast [hy1]
    omega
  · rw [U8_natCast, Nat.mod_eq_of_lt (by omega), and7_eq_self wn (by omega)]

/-- Witness for the amended C4 round-trip theorem at the time
2023-12-18 (year field 123), 09:05:00, weekday 1. -/
theorem c4_time_roundtrip_witness :
    (0 ≤ (0 : Int) ∧ (0 : Int) ≤ 59) ∧
    (100 ≤ (123 : Int) ∧ (123 : Int) ≤ 199) ∧
    pcf85363_decode_time (pcf85363_encode_time
      { tm_sec := 0, tm_min := 5, tm_hour := 9, tm_mday := 18,
        tm_mon := 12, tm_year := 123, tm_wday := 1 }) =
    { tm_sec := 0, tm_min := 5, tm_hour := 9, tm_mday := 18,
      tm_mon := 12, tm_year := 123, tm_wday := 1 } :=
  ⟨by decide, by decide,
   c4_time_roundtrip
     { tm_sec := 0, tm_min := 5, tm_hour := 9, tm_mday := 18,
       tm_mon := 12, tm_year := 123, tm_wday := 1 }
     (by decide) (by decide) (by decide) (by decide) (by decide) (by decide) (by decide)⟩

/-- Claim C5 counterexample: with target state enabled, the first
masked write of _pcf85363_rtc_alarm_irq_enable sets the five match
bits (value 31 under mask 31), and no write in the whole sequence
clears the match bits or the interrupt-enable bit: the claimed
clear-everything-first step does not happen when enabling. -/
theorem c5_enable_asserts_without_prior_clear_cex :
    (_pcf85363_rtc_alarm_irq_enable true 0 0 0).2 =
      [RegOp.updateBits DT_ALARM_EN 31 31, RegOp.updateBits CTRL_INTA_EN 16 16] ∧
    RegOp.updateBits DT_ALARM_EN 31 0 ∉ (_pcf85363_rtc_alarm_irq_enable true 0 0 0).2 ∧
    RegOp.updateBits CTRL_INTA_EN 16 0 ∉ (_pcf85363_rtc_alarm_irq_enable true 0 0 0).2 := by
  decide

/-- Claim C5 (amended): setAlarmEnable issues, in order, a masked
write to DT_ALARM_EN setting the five match bits to all-ones when
enabling and to zero when disabling, then a masked write to
CTRL_INTA_EN doing the same for INT_A1IE, and, only when disabling, a
final masked write clearing FLAGS_A1F; when enabling there is no
preliminary force-off step. -/
theorem c5_alarm_irq_enable_sequence (enabled : Bool) :
    (_pcf85363_rtc_alarm_irq_enable enabled 0 0 0).2 =
      [RegOp.updateBits DT_ALARM_EN alarm1_match_flags
          (if enabled then alarm1_match_flags else 0),
       RegOp.updateBits CTRL_INTA_EN INT_A1IE (if enabled then INT_A1IE else 0)] ++
      (if enabled then [] else [RegOp.updateBits CTRL_FLAGS FLAGS_A1F 0]) := by
  cases enabled <;> decide

/-- Claim C6 counterexample: with transport error -5, a failure of the
bulk time write (step 3) and a failure of the resume write (step 4)
return exactly the same value as a failure of the initial stop write
(steps 1-2): there is no distinguishable StoppedClockOnFailure error. -/
theorem c6_no_distinguishable_stopped_error_cex :
    (pcf85363_rtc_set_time ⟨0, 5, 9, 18, 11, 123, 1⟩ 0 0 (-5) 0).1 =
      (pcf85363_rtc_set_time ⟨0, 5, 9, 18, 11, 123, 1⟩ 0 (-5) 0 0).1 ∧
    (pcf85363_rtc_set_time ⟨0, 5, 9, 18, 11, 123, 1⟩ 0 0 0 (-5)).1 =
      (pcf85363_rtc_set_time ⟨0, 5, 9, 18, 11, 123, 1⟩ 0 (-5) 0 0).1 := by
  decide

/-- Claim C6 (amended): setTime returns the transport error code of
the failing transaction verbatim, whichever of the three transactions
fails; failures after the clock was stopped are therefore not
distinguishable from a failure of the initial stop write. -/
theorem c6_set_time_error_passthrough (tm : RtcTime) (stray : Nat) (e : Int)
    (he : e ≠ 0) :
    (pcf85363_rtc_set_time tm stray e 0 0).1 = e ∧
    (pcf85363_rtc_set_time tm stray 0 e 0).1 = e ∧
    (pcf85363_rtc_set_time tm stray 0 0 e).1 = e := by
  refine ⟨?_, ?_, ?_⟩ <;> simp [pcf85363_rtc_set_time, he]

/-- Witness for the amended C6 theorem with transport code -5. -/
theorem c6_set_time_error_passthrough_witness :
    (-5 : Int) ≠ 0 ∧
    ((pcf85363_rtc_set_time ⟨0, 5, 9, 18, 11, 123, 1⟩ 0 (-5) 0 0).1 = -5 ∧
     (pcf85363_rtc_set_time ⟨0, 5, 9, 18, 11, 123, 1⟩ 0 0 (-5) 0).1 = -5 ∧
     (pcf85363_rtc_set_time ⟨0, 5, 9, 18, 11, 123, 1⟩ 0 0 0 (-5)).1 = -5) :=
  ⟨by decide, c6_set_time_error_passthrough ⟨0, 5, 9, 18, 11, 123, 1⟩ 0 (-5) (by decide)⟩

/-- Claim C7: the interrupt handler issues exactly one status-flags
register read in every run; when the alarm-1 bit is clear it returns
IRQ_NONE with no write at all; when the alarm-1 bit is set, the only
write issued is the masked update clearing FLAGS_A1F, whose effect on
the 8-bit status register clears bit 5 and leaves the other seven
latched bits unchanged. -/
theorem c7_handle_irq_reads_once_clears_only_a1f (flags : Nat) (hf : flags < 256) :
    (∀ er : Int, (pcf85363_rtc_handle_irq er flags).2.countP isStatusRead = 1) ∧
    (flags &&& FLAGS_A1F = 0 →
      pcf85363_rtc_handle_irq 0 flags = (IrqResult.IRQ_NONE, [RegOp.read CTRL_FLAGS])) ∧
    (flags &&& FLAGS_A1F ≠ 0 →
      (pcf85363_rtc_handle_irq 0 flags).2 =
        [RegOp.read CTRL_FLAGS, RegOp.updateBits CTRL_FLAGS FLAGS_A1F 0] ∧
      (regmap_update_bits_effect flags FLAGS_A1F 0).testBit 5 = false ∧
      ∀ i < 8, i ≠ 5 →
        (regmap_update_bits_effect flags FLAGS_A1F 0).testBit i = flags.testBit i) := by
  refine ⟨?_, ?_, ?_⟩
  · intro er
    by_cases he : er = 0
    · subst he
      by_cases h : flags &&& FLAGS_A1F = 0 <;>
        simp [pcf85363_rtc_handle_irq, h, isStatusRead]
    · simp [pcf85363_rtc_handle_irq, he, isStatusRead]
  · intro h
    simp [pcf85363_rtc_handle_irq, h]
  · intro h
    exact ⟨by simp [pcf85363_rtc_handle_irq, h],
      (update_bits_clears_only_A1F flags hf).1,
      (update_bits_clears_only_A1F flags hf).2⟩

/-- Witness for the C7 theorem at the status value 0x20 (alarm-1 bit
set, all other bits clear). -/
theorem c7_handle_irq_reads_once_clears_only_a1f_witness :
    (32 : Nat) < 256 ∧
    ((∀ er : Int, (pcf85363_rtc_handle_irq er 32).2.countP isStatusRead = 1) ∧
     ((32 : Nat) &&& FLAGS_A1F = 0 →
       pcf85363_rtc_handle_irq 0 32 = (IrqResult.IRQ_NONE, [RegOp.read CTRL_FLAGS])) ∧
     ((32 : Nat) &&& FLAGS_A1F ≠ 0 →
       (pcf85363_rtc_handle_irq 0 32).2 =
         [RegOp.read CTRL_FLAGS, RegOp.updateBits CTRL_FLAGS FLAGS_A1F 0] ∧
       (regmap_update_bits_effect 32 FLAGS_A1F 0).testBit 5 = false ∧
       ∀ i < 8, i ≠ 5 →
         (regmap_update_bits_effect 32 FLAGS_A1F 0).testBit i = (32 : Nat).testBit i)) :=
  ⟨by decide, c7_handle_irq_reads_once_clears_only_a1f 32 (by decide)⟩

/-- Claim C8: a successful disable run of setAlarmEnable ends with the
masked write clearing the pending FLAGS_A1F flag (clearing bit 5 of
the status register, preserving all other bits), while an enable run
— for any transport outcomes — issues no write touching the
status-flags register at all. -/
theorem c8_disable_clears_flag_enable_preserves (e3 : Int) (flags : Nat)
    (hf : flags < 256) :
    (_pcf85363_rtc_alarm_irq_enable false 0 0 e3).2.getLast? =
      some (RegOp.updateBits CTRL_FLAGS FLAGS_A1F 0) ∧
    (regmap_update_bits_effect flags FLAGS_A1F 0).testBit 5 = false ∧
    (∀ i < 8, i ≠ 5 →
      (regmap_update_bits_effect flags FLAGS_A1F 0).testBit i = flags.testBit i) ∧
    (∀ e1 e2 e3a : Int, ∀ op ∈ (_pcf85363_rtc_alarm_irq_enable true e1 e2 e3a).2,
      writesTo op CTRL_FLAGS = false) := by
  refine ⟨rfl, (update_bits_clears_only_A1F flags hf).1,
    (update_bits_clears_only_A1F flags hf).2, ?_⟩
  intro e1 e2 e3a op hop
  have hsub : (_pcf85363_rtc_alarm_irq_enable true e1 e2 e3a).2 ⊆
      [RegOp.updateBits DT_ALARM_EN alarm1_match_flags alarm1_match_flags,
       RegOp.updateBits CTRL_INTA_EN INT_A1IE INT_A1IE] := by
    by_cases h1 : e1 = 0 <;> simp [_pcf85363_rtc_alarm_irq_enable, h1, List.subset_def]
  have hmem := hsub hop
  simp only [List.mem_cons, List.not_mem_nil, or_false] at hmem
  rcases hmem with rfl | rfl <;> decide

/-- Witness for the C8 theorem at e3 = 0 and status value 0xFF. -/
theorem c8_disable_clears_flag_enable_preserves_witness :
    (255 : Nat) < 256 ∧
    ((_pcf85363_rtc_alarm_irq_enable false 0 0 0).2.getLast? =
       some (RegOp.updateBits CTRL_FLAGS FLAGS_A1F 0) ∧
     (regmap_update_bits_effect 255 FLAGS_A1F 0).testBit 5 = false ∧
     (∀ i < 8, i ≠ 5 →
       (regmap_update_bits_effect 255 FLAGS_A1F 0).testBit i = (255 : Nat).testBit i) ∧
     (∀ e1 e2 e3a : Int, ∀ op ∈ (_pcf85363_rtc_alarm_irq_enable true e1 e2 e3a).2,
       writesTo op CTRL_FLAGS = false)) :=
  ⟨by decide, c8_disable_clears_flag_enable_preserves 0 255 (by decide)⟩

/-- Claim C9: pcf85363_probe registers the rtc_ops table, which holds
only the read-time and set-time callbacks; the alarm callbacks are
absent from the registered table, and neither the interrupt handler
nor the NVRAM functions are installed anywhere by probe. -/
theorem c9_probe_registers_only_time_ops :
    pcf85363_probe.registered_ops = rtc_ops ∧
    rtc_ops.read_time = some DriverFn.readTime ∧
    rtc_ops.set_time = some DriverFn.setTime ∧
    rtc_ops.read_alarm = none ∧
    rtc_ops.set_alarm = none ∧
    rtc_ops.alarm_irq_enable = none ∧
    pcf85363_probe.irq_handler_installed = false ∧
    pcf85363_probe.nvram_installed = false :=
  ⟨rfl, rfl, rfl, rfl, rfl, rfl, rfl, rfl⟩

/-- Claim C10: the PCF85263 and PCF85363 variants implement
extensionally equal time operations: the decoders agree on every
buffer, the read-time paths agree on every transport outcome and
buffer, and the set-time paths return the same result and issue the
same sequence of register writes on every input. -/
theorem c10_variants_extensionally_equal :
    (∀ buf : List Nat, pcf85263_decode_time buf = pcf85363_decode_time buf) ∧
    (∀ (er : Int) (buf : List Nat),
      pcf85263_rtc_read_time er buf = pcf85363_rtc_read_time er buf) ∧
    (∀ (tm : RtcTime) (stray : Nat) (e1 e2 e3 : Int),
      pcf85263_rtc_set_time tm stray e1 e2 e3 = pcf85363_rtc_set_time tm stray e1 e2 e3) :=
  ⟨fun _ => rfl, fun _ _ => rfl, fun _ _ _ _ _ => rfl⟩
